import Mathlib

/-!
Verification development for the media-download orchestrator in
`src/downloaders.py` (classes `MediaDownloader` and `MediaDownloadHelper`).

The embedding is a state-passing translation of the Python source.
External effects are made explicit:

* the local filesystem is an association list from paths to file sizes;
* every network request appends the requested URL to a call trace;
* the shared cross-process counter is a pair of natural numbers
  (attempts recorded, successful downloads);
* the behaviour of the outside world (HTTP responses, the
  gfycat/redgifs slug-lookup service, whether the counter raises) is an
  oracle `Env` supplied to every function.

Functions of this repository that live outside `src/` (`utils.py` and
`counter_and_status_bar.py`) are modelled from the spec; each such
definition says so in its doc comment.
-/

namespace Downloaders

/-- Python substring membership `pat in s`, on character lists. -/
def containsChars (pat : List Char) : List Char → Bool
  | [] => pat.isEmpty
  | c :: cs => pat.isPrefixOf (c :: cs) || containsChars pat cs

/-- Python `pat in s` on strings. -/
def pyInStr (pat s : String) : Bool :=
  containsChars pat.data s.data

/-- One fuelled pass of Python `str.replace`: replace occurrences of `pat`
left to right, non-overlapping.  Each step consumes at least one character,
so fuel equal to the length of the list is enough.  (Modelled for a
non-empty pattern; the source's only pattern is `.gifv`.) -/
def replaceChars (pat rep : List Char) : Nat → List Char → List Char
  | _, [] => []
  | 0, s => s
  | fuel + 1, c :: cs =>
    if pat.isPrefixOf (c :: cs) then
      rep ++ replaceChars pat rep fuel (List.drop (pat.length - 1) cs)
    else
      c :: replaceChars pat rep fuel cs

/-- Python `s.replace(pat, rep)`. -/
def pyReplace (s pat rep : String) : String :=
  ⟨replaceChars pat.data rep.data s.data.length s.data⟩

/-- Python `s.endswith(suffix)`, on the underlying character lists. -/
def pyEndsWith (s suffix : String) : Bool :=
  suffix.data.isSuffixOf s.data

/-- The local filesystem: association list from path to file size in bytes.
Lookup takes the first (most recent) entry for a path. -/
abbrev FS := List (String × Nat)

/-- Size of the file at `p`, or `none` when no such file exists. -/
def fsLookup (fs : FS) (p : String) : Option Nat :=
  List.lookup p fs

/-- Python `os.path.exists`. -/
def fsExists (fs : FS) (p : String) : Bool :=
  (fsLookup fs p).isSome

/-- Create or overwrite the file at `p` with `sz` bytes. -/
def fsWrite (fs : FS) (p : String) (sz : Nat) : FS :=
  (p, sz) :: fs

/-- Python `os.remove`. -/
def fsErase (fs : FS) (p : String) : FS :=
  fs.filter (fun e => e.1 ≠ p)

/-- Outcome of one HTTP streaming transfer of a URL, as performed by
`_core_download`: the request or `raise_for_status` may raise before the
destination file is opened (`connFail`, so nothing is created); the stream
may raise mid-transfer — a network error while iterating chunks or a
disk-write error — after the destination was opened and `written` bytes
were flushed (`midFail`, leaving a partial file of that size); or the
whole body of `size` bytes is transferred (`ok`). -/
inductive NetResult
  | connFail
  | midFail (written : Nat)
  | ok (size : Nat)
deriving DecidableEq

/-- Outcome of the gfycat/redgifs slug-lookup call. -/
inductive SlugResult
  | lookupFail
  | noUrl
  | found (u : String)
deriving DecidableEq

/-- Oracle describing the outside world: what each HTTP transfer does,
what the slug-lookup service answers, and whether the shared counter's
`increment_counter` raises. -/
structure Env where
  net : String → NetResult
  slug : String → String → SlugResult
  incRaises : Bool

/-- The nested preview metadata of a post: either the nested access
`post_details[preview][images][0][source][url]` raises (malformed), or it
yields a preview URL. -/
inductive PreviewInfo
  | malformed
  | url (u : String)
deriving DecidableEq

/-- A Reddit post's details, restricted to the fields `download_post`
reads: `domain`, `url`, `title` (each may be absent) and the optional
`preview` section. -/
structure Post where
  domain : Option String
  url : Option String
  title : Option String
  preview : Option PreviewInfo
deriving DecidableEq

/-- The mutable world threaded through the downloader: the filesystem,
the trace of URLs requested over the network, and the shared counter's
state (number of recorded attempts, number of successful downloads). -/
structure World where
  fs : FS
  calls : List String
  attempts : Nat
  count : Nat
deriving DecidableEq

/-- Modelled from the spec: `construct_local_filename` lives in `utils.py`,
which is not under `src/`.  §6 specifies `buildPath(title, url-or-suffix,
directory)` as a deterministic function of its inputs; the second argument
is the download URL at primary call sites and the literal suffix `.jpg` at
the fallback call site. -/
def construct_local_filename (title : Option String) (key : String) (dir : String) : String :=
  dir ++ "/" ++ title.getD "" ++ "_" ++ key

/-- Modelled from the spec: `check_if_empty_and_delete_file` lives in
`utils.py`, not under `src/`.  §4.3 (ResultValidator): a non-existent path
is invalid; an existing zero-byte file is invalid and is deleted; an
existing non-empty file is valid.  Returns the `is_empty` flag used by
`MediaDownloadHelper.download`. -/
def check_if_empty_and_delete_file (file_path : String) (w : World) : Bool × World :=
  match fsLookup w.fs file_path with
  | none => (true, w)
  | some 0 => (true, { w with fs := fsErase w.fs file_path })
  | some (Nat.succ _) => (false, w)

/-- Modelled from the spec: `get_gfycat_redgif_url` lives in `utils.py`,
not under `src/`.  §6: `resolveSlug(url, hostType) -> mediaUrl | none`,
implemented by an out-of-band metadata-lookup network call (recorded in
the call trace); it may also raise, which the per-host callers catch. -/
def get_gfycat_redgif_url (env : Env) (media_url : String) (domain_type : String)
    (w : World) : SlugResult × World :=
  (env.slug media_url domain_type, { w with calls := w.calls ++ [media_url] })

/-- Modelled from the spec: `MultiProcessingCounterAndStatusBar.increment_counter`
lives in `counter_and_status_bar.py`, not under `src/`.  §6: `recordAttempt`
always records that an attempt occurred and increments the success count iff
the download succeeded. -/
def increment_counter (download_successful : Bool) (w : World) : World :=
  { w with
    attempts := w.attempts + 1
    count := w.count + if download_successful then 1 else 0 }

/-- `MediaDownloadHelper._core_download`: skip when the destination already
exists; otherwise perform the streaming transfer.  The function's own
`except` clause catches every transfer error and returns normally, so no
exception escapes, but what is left on disk depends on where the error
struck: the source opens the destination only after `raise_for_status`, so
a raise before that point (non-2xx status, or the request itself failing)
creates no file, while an exception mid-stream (network error in
`iter_content`, disk-write error in `f.write`) leaves a partial file
holding the bytes already written. -/
def core_download (env : Env) (download_url local_filename : String) (w : World) : World :=
  if fsExists w.fs local_filename then w
  else
    match env.net download_url with
    | NetResult.connFail => { w with calls := w.calls ++ [download_url] }
    | NetResult.midFail written =>
      { w with
        calls := w.calls ++ [download_url]
        fs := fsWrite w.fs local_filename written }
    | NetResult.ok sz =>
      { w with
        calls := w.calls ++ [download_url]
        fs := fsWrite w.fs local_filename sz }

/-- `MediaDownloadHelper._download_to_local_file`: build the destination
filename, run `_core_download`, and return the filename.  Because
`_core_download` catches every exception itself, the surrounding
`try/except` in the source can never fire, and the filename is returned
even when the transfer failed. -/
def download_to_local_file (env : Env) (title : Option String) (dir download_url : String)
    (w : World) : Option String × World :=
  let local_filename := construct_local_filename title download_url dir
  (some local_filename, core_download env download_url local_filename w)

/-- `MediaDownloadHelper.do_nothing`: the default arm for unrecognized
hosts; returns `None`, meaning no download happened. -/
def do_nothing (w : World) : Option String × World :=
  (none, w)

/-- `MediaDownloadHelper.gfycat`: resolve the slug via the lookup service;
a lookup exception is caught and yields `None`, as does a missing URL. -/
def gfycat (env : Env) (media_url : String) (title : Option String) (dir : String)
    (w : World) : Option String × World :=
  match get_gfycat_redgif_url env media_url "gfycat" w with
  | (SlugResult.lookupFail, w₁) => (none, w₁)
  | (SlugResult.noUrl, w₁) => (none, w₁)
  | (SlugResult.found u, w₁) => download_to_local_file env title dir u w₁

/-- The URL `MediaDownloadHelper.imgur` actually fetches: when the string
`gifv` occurs anywhere in the media URL, every occurrence of `.gifv` is
replaced by `.mp4`; otherwise the URL is unchanged. -/
def imgurFetchUrl (media_url : String) : String :=
  if pyInStr "gifv" media_url then pyReplace media_url ".gifv" ".mp4" else media_url

/-- `MediaDownloadHelper.imgur`. -/
def imgur (env : Env) (media_url : String) (title : Option String) (dir : String)
    (w : World) : Option String × World :=
  download_to_local_file env title dir (imgurFetchUrl media_url) w

/-- `MediaDownloadHelper.ireddit`: direct-media host, URL used unchanged. -/
def ireddit (env : Env) (media_url : String) (title : Option String) (dir : String)
    (w : World) : Option String × World :=
  download_to_local_file env title dir media_url w

/-- `MediaDownloadHelper.redgifs`: like `gfycat` with domain type `redgif`. -/
def redgifs (env : Env) (media_url : String) (title : Option String) (dir : String)
    (w : World) : Option String × World :=
  match get_gfycat_redgif_url env media_url "redgif" w with
  | (SlugResult.lookupFail, w₁) => (none, w₁)
  | (SlugResult.noUrl, w₁) => (none, w₁)
  | (SlugResult.found u, w₁) => download_to_local_file env title dir u w₁

/-- The `domain_mappings.get(self._domain, self.do_nothing)()` dispatch in
`MediaDownloadHelper.download`. -/
def dispatchDomain (env : Env) (domain media_url : String) (title : Option String)
    (dir : String) (w : World) : Option String × World :=
  if domain = "gfycat.com" then gfycat env media_url title dir w
  else if domain = "i.imgur.com" then imgur env media_url title dir w
  else if domain = "i.redd.it" then ireddit env media_url title dir w
  else if domain = "redgifs.com" then redgifs env media_url title dir w
  else do_nothing w

/-- `MediaDownloadHelper._attempt_naive_preview_download`: absent `preview`
section yields `None`; a malformed nested structure raises, is caught, and
yields `None`; otherwise fetch the preview URL to a filename built with the
fixed `.jpg` suffix. -/
def attempt_naive_preview_download (env : Env) (title : Option String)
    (preview : Option PreviewInfo) (dir : String) (w : World) : Option String × World :=
  match preview with
  | none => (none, w)
  | some PreviewInfo.malformed => (none, w)
  | some (PreviewInfo.url purl) =>
    let local_filename := construct_local_filename title ".jpg" dir
    (some local_filename, core_download env purl local_filename w)

/-- Lines 99-105 of `MediaDownloadHelper.download`: dispatch to the per-host
method, then treat the result as successful iff a filename came back and
`check_if_empty_and_delete_file` found it non-empty. -/
def primary_attempt (env : Env) (domain media_url : String) (title : Option String)
    (dir : String) (w : World) : Bool × World :=
  match dispatchDomain env domain media_url title dir w with
  | (none, w₁) => (false, w₁)
  | (some f, w₁) =>
    match check_if_empty_and_delete_file f w₁ with
    | (e, w₂) => (!e, w₂)

/-- Lines 108-114 of `MediaDownloadHelper.download`: the naive preview
fallback followed by the same emptiness validation. -/
def fallback_attempt (env : Env) (title : Option String) (preview : Option PreviewInfo)
    (dir : String) (w : World) : Bool × World :=
  match attempt_naive_preview_download env title preview dir w with
  | (none, w₁) => (false, w₁)
  | (some f, w₁) =>
    match check_if_empty_and_delete_file f w₁ with
    | (e, w₂) => (!e, w₂)

/-- `MediaDownloadHelper.download`: primary attempt, then, only when it
failed, the fallback attempt; the final
`download_successful or naive_download_successful` short-circuits, so the
fallback name is only evaluated on the failure branch (which is also why
the unbound `naive_download_successful` never raises).  Every callee
catches its own exceptions, so the surrounding `try/except` is dead and
this function is total. -/
def helper_download (env : Env) (domain media_url : String) (title : Option String)
    (preview : Option PreviewInfo) (dir : String) (w : World) : Bool × World :=
  match primary_attempt env domain media_url title dir w with
  | (true, w₁) => (true, w₁)
  | (false, w₁) => fallback_attempt env title preview dir w₁

/-- The body of the `try` block of `MediaDownloader.download_post`
(lines 43-61): quota check, field extraction, helper download, counter
update.  `Except.error` marks an exception escaping the body (the only
uncaught raise point left is `increment_counter`, controlled by
`Env.incRaises`); the `Option Bool` is the Python return value (`None` or
`False`). -/
def download_post_body (env : Env) (maxPosts : Nat) (post : Post) (dir : String)
    (w : World) : Except Unit (Option Bool) × World :=
  if maxPosts ≤ w.count then (Except.ok none, w)
  else
    match post.domain, post.url with
    | some domain, some media_url =>
      match helper_download env domain media_url post.title post.preview dir w with
      | (ds, w₁) =>
        if env.incRaises then (Except.error (), w₁)
        else (Except.ok none, increment_counter ds w₁)
    | _, _ => (Except.ok (some false), w)

/-- `MediaDownloader.download_post`: the body wrapped in the top-level
`except Exception` clause, which logs and falls off the end (returning
`None`). -/
def download_post (env : Env) (maxPosts : Nat) (post : Post) (dir : String)
    (w : World) : Option Bool × World :=
  match download_post_body env maxPosts post dir w with
  | (Except.ok r, w₁) => (r, w₁)
  | (Except.error _, w₁) => (none, w₁)

/-- Modelled from the spec (§5, §3): the check-then-act quota protocol run
by concurrent workers against the shared counter.  Worker identity is
irrelevant to the count, so the state tracks how many of the workers are
in each phase: `idle` workers are before their quota check, `inflight`
workers have passed the check (`count < maxPosts`) but have not yet
recorded their outcome. -/
structure QState where
  count : Nat
  inflight : Nat
  idle : Nat
deriving DecidableEq

/-- One interleaved step of the quota protocol: an idle worker passes the
quota check, an idle worker observes the quota reached and skips, or an
in-flight worker records its outcome (incrementing the shared count only
on success). -/
inductive QStep (maxPosts : Nat) : QState → QState → Prop
  | pass (c i d : Nat) : c < maxPosts → QStep maxPosts ⟨c, i, d + 1⟩ ⟨c, i + 1, d⟩
  | skip (c i d : Nat) : maxPosts ≤ c → QStep maxPosts ⟨c, i, d⟩ ⟨c, i, d⟩
  | record (c i d : Nat) (succ : Bool) :
      QStep maxPosts ⟨c, i + 1, d⟩ ⟨c + (if succ then 1 else 0), i, d + 1⟩

/-- States reachable by `n` workers starting from count `0`, all idle. -/
inductive QReach (maxPosts n : Nat) : QState → Prop
  | init : QReach maxPosts n ⟨0, 0, n⟩
  | step (s t : QState) : QReach maxPosts n s → QStep maxPosts s t → QReach maxPosts n t

/-- Concrete environment: every transfer succeeds with a 5-byte body, the
slug lookup raises, the counter behaves. -/
def envOk : Env := ⟨fun _ => NetResult.ok 5, fun _ _ => SlugResult.lookupFail, false⟩

/-- Concrete environment: every transfer raises before the destination is
opened, the slug lookup raises, the counter behaves. -/
def envFail : Env := ⟨fun _ => NetResult.connFail, fun _ _ => SlugResult.lookupFail, false⟩

/-- Concrete environment: every transfer raises mid-stream after 3 bytes
were already written to the destination, the slug lookup raises, the
counter behaves. -/
def envMid : Env := ⟨fun _ => NetResult.midFail 3, fun _ _ => SlugResult.lookupFail, false⟩

/-- Concrete initial world: empty filesystem, no calls, counter at zero. -/
def w0 : World := ⟨[], [], 0, 0⟩

/-- Concrete post hosted on the direct-media host `i.redd.it`. -/
def postIreddit : Post := ⟨some "i.redd.it", some "https://i.redd.it/x.jpg", some "cat", none⟩

/-- Concrete post on an unrecognized host carrying preview metadata. -/
def postUnknown : Post := ⟨some "unknown.com", some "u", some "t", some (PreviewInfo.url "pv")⟩

/-- Concrete post on the slug host `gfycat.com` carrying preview metadata. -/
def postGfycat : Post := ⟨some "gfycat.com", some "u", some "t", some (PreviewInfo.url "pv")⟩

theorem fsLookup_write_self (fs : FS) (p : String) (sz : Nat) :
    fsLookup (fsWrite fs p sz) p = some sz := by
  simp [fsLookup, fsWrite, List.lookup]

theorem fsLookup_nil (p : String) : fsLookup [] p = none := rfl

theorem fsLookup_of_not_exists (fs : FS) (p : String) (h : fsExists fs p = false) :
    fsLookup fs p = none := by
  cases hc : fsLookup fs p with
  | none => rfl
  | some v => rw [fsExists, hc] at h; simp at h

/-- C1: when the successful-download count already meets the configured
maximum, `download_post` returns immediately (Python `None`) and the world
is completely untouched: no file is created, no network request is made,
and the counter records neither an attempt nor a success. -/
theorem c1_quota_short_circuit (env : Env) (maxPosts : Nat) (post : Post) (dir : String)
    (w : World) (h : maxPosts ≤ w.count) :
    download_post env maxPosts post dir w = (none, w) := by
  simp [download_post, download_post_body, h]

theorem c1_quota_short_circuit_witness :
    (1 : Nat) ≤ (World.mk [] [] 3 1).count ∧
    download_post envOk 1 postIreddit "dl" ⟨[], [], 3, 1⟩ = (none, ⟨[], [], 3, 1⟩) :=
  ⟨by decide, c1_quota_short_circuit envOk 1 postIreddit "dl" ⟨[], [], 3, 1⟩ (by decide)⟩

/-- C4: when the post's `domain` or `url` field is absent (and the quota
check passes), `download_post` returns Python `False` and the world is
untouched: no file is written and the shared counter is not informed. -/
theorem c4_malformed_input (env : Env) (maxPosts : Nat) (post : Post) (dir : String)
    (w : World) (hq : w.count < maxPosts) (hm : post.domain = none ∨ post.url = none) :
    download_post env maxPosts post dir w = (some false, w) := by
  rcases hm with h | h <;> cases hd : post.domain <;> cases hu : post.url <;>
    simp_all [download_post, download_post_body, show ¬ maxPosts ≤ w.count by omega]

theorem c4_malformed_input_witness :
    (0 : Nat) < 5 ∧ ((Post.mk (some "x") none none none).domain = none ∨
      (Post.mk (some "x") none none none).url = none) ∧
    download_post envOk 5 ⟨some "x", none, none, none⟩ "dl" w0 = (some false, w0) :=
  ⟨by decide, Or.inr rfl,
    c4_malformed_input envOk 5 ⟨some "x", none, none, none⟩ "dl" w0 (by decide) (Or.inr rfl)⟩

/-- C10: `download_post` returns Python `None` on every path except the
missing-field path, which alone returns `False`; so the public return
value distinguishes exactly the malformed-input case and nothing else. -/
theorem c10_return_value (env : Env) (maxPosts : Nat) (post : Post) (dir : String)
    (w : World) :
    ∃ r w₁, download_post env maxPosts post dir w = (r, w₁) ∧
      (r = some false ↔ (w.count < maxPosts ∧ (post.domain = none ∨ post.url = none))) ∧
      (r = none ∨ r = some false) := by
  by_cases hq : maxPosts ≤ w.count
  · refine ⟨none, w, ?_, ?_, Or.inl rfl⟩
    · simp [download_post, download_post_body, hq]
    · constructor
      · intro hc; exact absurd hc (by simp)
      · rintro ⟨hc, -⟩; omega
  · cases hd : post.domain with
    | none =>
      refine ⟨some false, w, ?_, ?_, Or.inr rfl⟩
      · simp [download_post, download_post_body, hq, hd]
      · simp [hd]; omega
    | some d =>
      cases hu : post.url with
      | none =>
        refine ⟨some false, w, ?_, ?_, Or.inr rfl⟩
        · simp [download_post, download_post_body, hq, hd, hu]
        · simp [hd, hu]; omega
      | some u =>
        rcases hh : helper_download env d u post.title post.preview dir w with ⟨ds, w₁⟩
        by_cases hi : env.incRaises
        · refine ⟨none, w₁, ?_, ?_, Or.inl rfl⟩
          · simp [download_post, download_post_body, hq, hd, hu, hh, hi]
          · simp [hd, hu]
        · refine ⟨none, increment_counter ds w₁, ?_, ?_, Or.inl rfl⟩
          · simp [download_post, download_post_body, hq, hd, hu, hh, hi]
          · simp [hd, hu]

/-- C2, counterexample: at a concrete input whose transfer raises before
the destination is opened (`connFail`: `raise_for_status` on a non-2xx
status, or the request failing), the per-host download step
`_download_to_local_file` still returns the destination filename rather
than `None`, contradicting the claim that the fetch is reported as a
failure to its caller; the error is merely swallowed (`_core_download`
catches it and returns normally). -/
theorem c2_fetch_error_counterexample :
    envFail.net "u" = NetResult.connFail ∧
    (download_to_local_file envFail none "d" "u" w0).1 ≠ none ∧
    (download_to_local_file envFail none "d" "u" w0).2.fs = w0.fs := by
  decide

/-- C2, amended: on every kind of transfer error the StreamFetcher
(`_core_download`) catches and logs the error and returns normally, but
does not signal failure to `_download_to_local_file`, which still returns
the destination filename.  What the subsequent validation step then sees
depends on where the error struck.  First conjunct: an error before the
destination is opened (non-2xx status via `raise_for_status`, or the
request failing) creates no file, and validation detects the failure
(path absent, attempt marked empty).  Second conjunct: a mid-stream
network or disk-write error leaves a partial file of the bytes already
written; when that partial is zero-byte, validation deletes it and marks
the attempt failed, but when it is non-empty, validation accepts it and
the attempt passes as a success. -/
theorem c2_fetch_error_amended (env : Env) (title : Option String) (dir durl : String)
    (w : World)
    (hne : fsExists w.fs (construct_local_filename title durl dir) = false) :
    (env.net durl = NetResult.connFail →
      download_to_local_file env title dir durl w =
        (some (construct_local_filename title durl dir), { w with calls := w.calls ++ [durl] }) ∧
      check_if_empty_and_delete_file (construct_local_filename title durl dir)
          { w with calls := w.calls ++ [durl] } =
        (true, { w with calls := w.calls ++ [durl] })) ∧
    (∀ k, env.net durl = NetResult.midFail k →
      download_to_local_file env title dir durl w =
        (some (construct_local_filename title durl dir),
         { w with calls := w.calls ++ [durl],
                  fs := fsWrite w.fs (construct_local_filename title durl dir) k }) ∧
      (k = 0 →
        check_if_empty_and_delete_file (construct_local_filename title durl dir)
            { w with calls := w.calls ++ [durl],
                     fs := fsWrite w.fs (construct_local_filename title durl dir) 0 } =
          (true, { w with calls := w.calls ++ [durl],
                          fs := fsErase (fsWrite w.fs (construct_local_filename title durl dir) 0)
                              (construct_local_filename title durl dir) })) ∧
      (∀ j, k = j + 1 →
        check_if_empty_and_delete_file (construct_local_filename title durl dir)
            { w with calls := w.calls ++ [durl],
                     fs := fsWrite w.fs (construct_local_filename title durl dir) k } =
          (false, { w with calls := w.calls ++ [durl],
                           fs := fsWrite w.fs (construct_local_filename title durl dir) k }))) := by
  have hl := fsLookup_of_not_exists w.fs (construct_local_filename title durl dir) hne
  constructor
  · intro hnet
    constructor
    · simp [download_to_local_file, core_download, fsExists, hl, hnet]
    · simp [check_if_empty_and_delete_file, hl]
  · intro k hnet
    refine ⟨?_, ?_, ?_⟩
    · simp [download_to_local_file, core_download, fsExists, hl, hnet]
    · rintro rfl
      simp [check_if_empty_and_delete_file, fsLookup_write_self]
    · rintro j rfl
      simp [check_if_empty_and_delete_file, fsLookup_write_self]

theorem c2_fetch_error_amended_witness :
    fsExists w0.fs (construct_local_filename none "u" "d") = false ∧
    ((envFail.net "u" = NetResult.connFail →
      download_to_local_file envFail none "d" "u" w0 =
        (some (construct_local_filename none "u" "d"), { w0 with calls := w0.calls ++ ["u"] }) ∧
      check_if_empty_and_delete_file (construct_local_filename none "u" "d")
          { w0 with calls := w0.calls ++ ["u"] } =
        (true, { w0 with calls := w0.calls ++ ["u"] })) ∧
    (∀ k, envFail.net "u" = NetResult.midFail k →
      download_to_local_file envFail none "d" "u" w0 =
        (some (construct_local_filename none "u" "d"),
         { w0 with calls := w0.calls ++ ["u"],
                   fs := fsWrite w0.fs (construct_local_filename none "u" "d") k }) ∧
      (k = 0 →
        check_if_empty_and_delete_file (construct_local_filename none "u" "d")
            { w0 with calls := w0.calls ++ ["u"],
                      fs := fsWrite w0.fs (construct_local_filename none "u" "d") 0 } =
          (true, { w0 with calls := w0.calls ++ ["u"],
                           fs := fsErase (fsWrite w0.fs (construct_local_filename none "u" "d") 0)
                               (construct_local_filename none "u" "d") })) ∧
      (∀ j, k = j + 1 →
        check_if_empty_and_delete_file (construct_local_filename none "u" "d")
            { w0 with calls := w0.calls ++ ["u"],
                      fs := fsWrite w0.fs (construct_local_filename none "u" "d") k } =
          (false, { w0 with calls := w0.calls ++ ["u"],
                            fs := fsWrite w0.fs (construct_local_filename none "u" "d") k })))) :=
  ⟨by decide, c2_fetch_error_amended envFail none "d" "u" w0 (by decide)⟩

/-- C6: a host outside the four recognized domains dispatches to
`do_nothing`, i.e. resolution is `unresolvable` (`None`) with the world
untouched; and when additionally the post has no preview metadata,
`download_post` reports a failure (`increment_counter false`: one attempt
recorded, success count unchanged) and creates no file. -/
theorem c6_unrecognized_host (env : Env) (maxPosts : Nat) (post : Post) (d u dir : String)
    (w : World) (hd : post.domain = some d) (hu : post.url = some u)
    (h1 : d ≠ "gfycat.com") (h2 : d ≠ "i.imgur.com") (h3 : d ≠ "i.redd.it")
    (h4 : d ≠ "redgifs.com") :
    dispatchDomain env d u post.title dir w = (none, w) ∧
    (post.preview = none → w.count < maxPosts → env.incRaises = false →
      download_post env maxPosts post dir w = (none, increment_counter false w) ∧
      (increment_counter false w).fs = w.fs ∧
      (increment_counter false w).count = w.count ∧
      (increment_counter false w).attempts = w.attempts + 1) := by
  have hdisp : dispatchDomain env d u post.title dir w = (none, w) := by
    simp [dispatchDomain, h1, h2, h3, h4, do_nothing]
  refine ⟨hdisp, fun hp hq hi => ⟨?_, by simp [increment_counter], by simp [increment_counter],
    by simp [increment_counter]⟩⟩
  simp [download_post, download_post_body, hd, hu, show ¬ maxPosts ≤ w.count by omega, hi,
        helper_download, primary_attempt, hdisp, fallback_attempt,
        attempt_naive_preview_download, hp]

theorem c6_unrecognized_host_witness :
    (Post.mk (some "unknown.com") (some "u") (some "t") none).domain = some "unknown.com" ∧
    (Post.mk (some "unknown.com") (some "t") (some "t") none).url = some "t" ∧
    ("unknown.com" : String) ≠ "gfycat.com" ∧ ("unknown.com" : String) ≠ "i.imgur.com" ∧
    ("unknown.com" : String) ≠ "i.redd.it" ∧ ("unknown.com" : String) ≠ "redgifs.com" ∧
    (dispatchDomain envOk "unknown.com" "u" (Post.mk (some "unknown.com") (some "u")
        (some "t") none).title "dl" w0 = (none, w0) ∧
      ((Post.mk (some "unknown.com") (some "u") (some "t") none).preview = none →
        w0.count < 5 → envOk.incRaises = false →
        download_post envOk 5 (Post.mk (some "unknown.com") (some "u") (some "t") none) "dl" w0 =
            (none, increment_counter false w0) ∧
          (increment_counter false w0).fs = w0.fs ∧
          (increment_counter false w0).count = w0.count ∧
          (increment_counter false w0).attempts = w0.attempts + 1)) :=
  ⟨rfl, rfl, by decide, by decide, by decide, by decide,
    c6_unrecognized_host envOk 5 ⟨some "unknown.com", some "u", some "t", none⟩
      "unknown.com" "u" "dl" w0 rfl rfl (by decide) (by decide) (by decide) (by decide)⟩

/-- C7, counterexample: the claim says URLs not ending in the `.gifv`
suffix are fetched unchanged, but the source tests `gifv in url` and
replaces every occurrence of the substring `.gifv`; the concrete imgur URL
below does not end in `.gifv`, yet its fetched URL differs from the
input. -/
theorem c7_gifv_counterexample :
    pyEndsWith "https://i.imgur.com/a.gifvy" ".gifv" = false ∧
    imgurFetchUrl "https://i.imgur.com/a.gifvy" ≠ "https://i.imgur.com/a.gifvy" ∧
    imgurFetchUrl "https://i.imgur.com/a.gifvy" = "https://i.imgur.com/a.mp4y" := by
  decide

/-- C7, amended: the URL fetched by the imgur handler is `imgurFetchUrl`:
when the substring `gifv` occurs anywhere in the media URL, every
occurrence of the substring `.gifv` is replaced by `.mp4` (not only a
trailing suffix); when `gifv` does not occur at all the URL is unchanged.
In particular a URL whose sole `.gifv` occurrence is its final suffix is
rewritten to the `.mp4` suffix. -/
theorem c7_gifv_amended (env : Env) (u : String) (title : Option String) (dir : String)
    (w : World) :
    imgur env u title dir w = download_to_local_file env title dir (imgurFetchUrl u) w ∧
    (pyInStr "gifv" u = false → imgurFetchUrl u = u) ∧
    (pyInStr "gifv" u = true → imgurFetchUrl u = pyReplace u ".gifv" ".mp4") ∧
    (fsExists w.fs (construct_local_filename title (imgurFetchUrl u) dir) = false →
      (imgur env u title dir w).2.calls = w.calls ++ [imgurFetchUrl u]) ∧
    imgurFetchUrl "https://i.imgur.com/abc.gifv" = "https://i.imgur.com/abc.mp4" ∧
    imgurFetchUrl "https://i.imgur.com/plain.jpg" = "https://i.imgur.com/plain.jpg" := by
  refine ⟨rfl, fun h => by simp [imgurFetchUrl, h], fun h => by simp [imgurFetchUrl, h],
    fun h => ?_, by decide, by decide⟩
  cases hn : env.net (imgurFetchUrl u) <;>
    simp [imgur, download_to_local_file, core_download, h, hn]

theorem c7_gifv_amended_witness :
    pyInStr "gifv" "https://i.imgur.com/abc.gifv" = true ∧
    fsExists w0.fs (construct_local_filename (some "t")
      (imgurFetchUrl "https://i.imgur.com/abc.gifv") "dl") = false ∧
    (imgur envOk "https://i.imgur.com/abc.gifv" (some "t") "dl" w0 =
        download_to_local_file envOk (some "t") "dl"
          (imgurFetchUrl "https://i.imgur.com/abc.gifv") w0 ∧
      (pyInStr "gifv" "https://i.imgur.com/abc.gifv" = false →
        imgurFetchUrl "https://i.imgur.com/abc.gifv" = "https://i.imgur.com/abc.gifv") ∧
      (pyInStr "gifv" "https://i.imgur.com/abc.gifv" = true →
        imgurFetchUrl "https://i.imgur.com/abc.gifv" =
          pyReplace "https://i.imgur.com/abc.gifv" ".gifv" ".mp4") ∧
      (fsExists w0.fs (construct_local_filename (some "t")
          (imgurFetchUrl "https://i.imgur.com/abc.gifv") "dl") = false →
        (imgur envOk "https://i.imgur.com/abc.gifv" (some "t") "dl" w0).2.calls =
          w0.calls ++ [imgurFetchUrl "https://i.imgur.com/abc.gifv"]) ∧
      imgurFetchUrl "https://i.imgur.com/abc.gifv" = "https://i.imgur.com/abc.mp4" ∧
      imgurFetchUrl "https://i.imgur.com/plain.jpg" = "https://i.imgur.com/plain.jpg") :=
  ⟨by decide, by decide,
    c7_gifv_amended envOk "https://i.imgur.com/abc.gifv" (some "t") "dl" w0⟩

/-- C5: `_core_download` is a no-op on an already-existing destination
(first conjunct, fully general: no network request, world unchanged);
consequently processing the same `i.redd.it` post twice with the first
output file intact performs no second transfer (the call trace does not
grow) and yields the same outcome (another success, `None` returned, the
counter incremented again). -/
theorem c5_skip_if_exists (env : Env) (maxPosts : Nat) (post : Post) (dir u : String)
    (w : World) (sz : Nat)
    (hd : post.domain = some "i.redd.it") (hu : post.url = some u)
    (hn : env.net u = NetResult.ok (sz + 1)) (hi : env.incRaises = false)
    (hne : fsExists w.fs (construct_local_filename post.title u dir) = false)
    (hq : w.count + 1 < maxPosts) :
    (∀ durl f w', fsExists w'.fs f = true → core_download env durl f w' = w') ∧
    ∃ w₁, download_post env maxPosts post dir w = (none, w₁) ∧
      w₁.calls = w.calls ++ [u] ∧ w₁.count = w.count + 1 ∧
      w₁.fs = fsWrite w.fs (construct_local_filename post.title u dir) (sz + 1) ∧
      download_post env maxPosts post dir w₁ =
        (none, { w₁ with attempts := w₁.attempts + 1, count := w₁.count + 1 }) := by
  have hl := fsLookup_of_not_exists w.fs (construct_local_filename post.title u dir) hne
  refine ⟨fun durl f w' h => by simp [core_download, h], ?_⟩
  refine ⟨⟨fsWrite w.fs (construct_local_filename post.title u dir) (sz + 1),
    w.calls ++ [u], w.attempts + 1, w.count + 1⟩, ?_, rfl, rfl, rfl, ?_⟩
  · simp [download_post, download_post_body, hd, hu, show ¬ maxPosts ≤ w.count by omega, hi,
          helper_download, primary_attempt, dispatchDomain, ireddit, download_to_local_file,
          core_download, fsExists, hl, hn, check_if_empty_and_delete_file, fsLookup_write_self,
          increment_counter]
  · simp [download_post, download_post_body, hd, hu, show ¬ maxPosts ≤ w.count + 1 by omega, hi,
          helper_download, primary_attempt, dispatchDomain, ireddit, download_to_local_file,
          core_download, fsExists, fsLookup_write_self, check_if_empty_and_delete_file,
          increment_counter]

theorem c5_skip_if_exists_witness :
    postIreddit.domain = some "i.redd.it" ∧
    postIreddit.url = some "https://i.redd.it/x.jpg" ∧
    envOk.net "https://i.redd.it/x.jpg" = NetResult.ok (4 + 1) ∧
    envOk.incRaises = false ∧
    fsExists w0.fs (construct_local_filename postIreddit.title "https://i.redd.it/x.jpg" "dl")
      = false ∧
    w0.count + 1 < 5 ∧
    ((∀ durl f w', fsExists w'.fs f = true → core_download envOk durl f w' = w') ∧
      ∃ w₁, download_post envOk 5 postIreddit "dl" w0 = (none, w₁) ∧
        w₁.calls = w0.calls ++ ["https://i.redd.it/x.jpg"] ∧ w₁.count = w0.count + 1 ∧
        w₁.fs = fsWrite w0.fs
          (construct_local_filename postIreddit.title "https://i.redd.it/x.jpg" "dl") (4 + 1) ∧
        download_post envOk 5 postIreddit "dl" w₁ =
          (none, { w₁ with attempts := w₁.attempts + 1, count := w₁.count + 1 })) :=
  ⟨rfl, rfl, rfl, rfl, by decide, by decide,
    c5_skip_if_exists envOk 5 postIreddit "dl" "https://i.redd.it/x.jpg" w0 4
      rfl rfl rfl rfl (by decide) (by decide)⟩

/-- C3: for a well-formed post processed under quota, `download_post`
runs the primary attempt; the overall flag is the primary flag OR (only
when the primary failed) the fallback flag; `increment_counter` is called
exactly once with that overall flag (one attempt recorded, the success
count raised iff the flag holds); and when the primary failed and preview
metadata with a URL is present, the fallback fetches that preview URL
exactly once (one network request) to a filename ending in the fixed
`.jpg` suffix. -/
theorem c3_overall_outcome (env : Env) (maxPosts : Nat) (post : Post) (d u dir : String)
    (w : World) (hd : post.domain = some d) (hu : post.url = some u)
    (hq : w.count < maxPosts) (hi : env.incRaises = false) :
    ∃ p wp succ w₁,
      primary_attempt env d u post.title dir w = (p, wp) ∧
      helper_download env d u post.title post.preview dir w = (succ, w₁) ∧
      (if p then succ = true ∧ w₁ = wp
       else (succ, w₁) = fallback_attempt env post.title post.preview dir wp) ∧
      download_post env maxPosts post dir w = (none, increment_counter succ w₁) ∧
      (increment_counter succ w₁).attempts = w₁.attempts + 1 ∧
      (increment_counter succ w₁).count = w₁.count + (if succ then 1 else 0) ∧
      (∀ purl, p = false → post.preview = some (PreviewInfo.url purl) →
        fsExists wp.fs (construct_local_filename post.title ".jpg" dir) = false →
        w₁.calls = wp.calls ++ [purl]) ∧
      (∃ stem, construct_local_filename post.title ".jpg" dir = stem ++ ".jpg") := by
  rcases hp : primary_attempt env d u post.title dir w with ⟨p, wp⟩
  cases p with
  | true =>
    refine ⟨true, wp, true, wp, rfl, ?_, ?_, ?_, ?_, ?_, ?_,
      ⟨dir ++ "/" ++ post.title.getD "" ++ "_", rfl⟩⟩
    · simp [helper_download, hp]
    · simp
    · simp [download_post, download_post_body, hd, hu, show ¬ maxPosts ≤ w.count by omega,
            hi, helper_download, hp]
    · simp [increment_counter]
    · simp [increment_counter]
    · intro purl hc
      exact absurd hc (by simp)
  | false =>
    rcases hf : fallback_attempt env post.title post.preview dir wp with ⟨succ, w₁⟩
    refine ⟨false, wp, succ, w₁, rfl, ?_, ?_, ?_, ?_, ?_, ?_,
      ⟨dir ++ "/" ++ post.title.getD "" ++ "_", rfl⟩⟩
    · simp [helper_download, hp, hf]
    · simp [hf]
    · simp [download_post, download_post_body, hd, hu, show ¬ maxPosts ≤ w.count by omega,
            hi, helper_download, hp, hf]
    · simp [increment_counter]
    · simp [increment_counter]
    · intro purl _ hpv hne
      have hl := fsLookup_of_not_exists wp.fs
        (construct_local_filename post.title ".jpg" dir) hne
      rw [fallback_attempt, attempt_naive_preview_download.eq_def, hpv] at hf
      cases hn : env.net purl with
      | connFail =>
        simp [core_download, fsExists, hl, hn, check_if_empty_and_delete_file] at hf
        rw [← hf.2]
      | midFail written =>
        cases written with
        | zero =>
          simp [core_download, fsExists, hl, hn, check_if_empty_and_delete_file,
                fsLookup_write_self] at hf
          rw [← hf.2]
        | succ k =>
          simp [core_download, fsExists, hl, hn, check_if_empty_and_delete_file,
                fsLookup_write_self] at hf
          rw [← hf.2]
      | ok sz =>
        cases sz with
        | zero =>
          simp [core_download, fsExists, hl, hn, check_if_empty_and_delete_file,
                fsLookup_write_self] at hf
          rw [← hf.2]
        | succ k =>
          simp [core_download, fsExists, hl, hn, check_if_empty_and_delete_file,
                fsLookup_write_self] at hf
          rw [← hf.2]

theorem c3_overall_outcome_witness :
    postUnknown.domain = some "unknown.com" ∧ postUnknown.url = some "u" ∧
    w0.count < 5 ∧ envOk.incRaises = false ∧
    (∃ p wp succ w₁,
      primary_attempt envOk "unknown.com" "u" postUnknown.title "dl" w0 = (p, wp) ∧
      helper_download envOk "unknown.com" "u" postUnknown.title postUnknown.preview "dl" w0
        = (succ, w₁) ∧
      (if p then succ = true ∧ w₁ = wp
       else (succ, w₁) = fallback_attempt envOk postUnknown.title postUnknown.preview "dl" wp) ∧
      download_post envOk 5 postUnknown "dl" w0 = (none, increment_counter succ w₁) ∧
      (increment_counter succ w₁).attempts = w₁.attempts + 1 ∧
      (increment_counter succ w₁).count = w₁.count + (if succ then 1 else 0) ∧
      (∀ purl, p = false → postUnknown.preview = some (PreviewInfo.url purl) →
        fsExists wp.fs (construct_local_filename postUnknown.title ".jpg" "dl") = false →
        w₁.calls = wp.calls ++ [purl]) ∧
      (∃ stem, construct_local_filename postUnknown.title ".jpg" "dl" = stem ++ ".jpg")) :=
  ⟨rfl, rfl, by decide, rfl,
    c3_overall_outcome envOk 5 postUnknown "unknown.com" "u" "dl" w0 rfl rfl (by decide) rfl⟩

/-- C8, counterexample: a transfer that raises mid-stream — here every
request dies after 3 bytes were already written to the destination — is an
exception at the fetching stage; it is caught and `download_post` returns
`None`, but the non-empty partial file passes validation, so the outcome
recorded to the shared counter is a success (the count increments),
contradicting the claim that every caught exception is converted to a
failure outcome. -/
theorem c8_exceptions_counterexample :
    envMid.net "https://i.redd.it/x.jpg" = NetResult.midFail 3 ∧
    download_post envMid 5 postIreddit "dl" w0 =
      (none, ⟨[("dl/cat_https://i.redd.it/x.jpg", 3)], ["https://i.redd.it/x.jpg"], 1, 1⟩) ∧
    (download_post envMid 5 postIreddit "dl" w0).2.count = w0.count + 1 := by
  decide

/-- C8, amended: every exception raised at any stage is caught and logged
where the source catches it, and nothing ever propagates out of
`download_post` — but the outcome then reported is not always failure.
First conjunct: when every transfer raises before the destination is
opened and the slug lookup raises (the preview arbitrary, the counter
possibly raising too, no destination file pre-existing), every exception
is absorbed, `download_post` returns Python `None`, the success count is
unchanged and no file exists.  Second conjunct, the deviation the
counterexample forces: an `i.redd.it` fetch that raises mid-stream after
one or more bytes were written is equally caught and `download_post`
still returns `None`, but the non-empty partial file passes validation
and the recorded outcome is a success. -/
theorem c8_exceptions_contained (env : Env) (maxPosts : Nat) (post : Post) (d u dir : String)
    (w : World) (hd : post.domain = some d) (hu : post.url = some u)
    (hq : w.count < maxPosts) (hfs : w.fs = []) :
    ((∀ v, env.net v = NetResult.connFail) →
     (∀ a b, env.slug a b = SlugResult.lookupFail) →
      ∃ cs : List String,
        helper_download env d u post.title post.preview dir w
          = (false, { w with calls := w.calls ++ cs }) ∧
        download_post_body env maxPosts post dir w =
          ((if env.incRaises then Except.error () else Except.ok none),
           if env.incRaises then { w with calls := w.calls ++ cs }
           else increment_counter false { w with calls := w.calls ++ cs }) ∧
        download_post env maxPosts post dir w =
          (none, if env.incRaises then { w with calls := w.calls ++ cs }
                 else increment_counter false { w with calls := w.calls ++ cs }) ∧
        (download_post env maxPosts post dir w).2.count = w.count ∧
        (download_post env maxPosts post dir w).2.fs = []) ∧
    (∀ k, d = "i.redd.it" → env.net u = NetResult.midFail (k + 1) →
      env.incRaises = false →
      download_post env maxPosts post dir w =
        (none, increment_counter true
          { w with calls := w.calls ++ [u],
                   fs := fsWrite w.fs (construct_local_filename post.title u dir) (k + 1) }) ∧
      (download_post env maxPosts post dir w).2.count = w.count + 1) := by
  constructor
  · intro hnet hslug
    have hex : ∀ f, fsExists w.fs f = false := by
      intro f; simp [fsExists, fsLookup, hfs]
    have hl : ∀ f, fsLookup w.fs f = none := by
      intro f; simp [fsLookup, hfs]
    have key : ∃ cs, helper_download env d u post.title post.preview dir w
        = (false, { w with calls := w.calls ++ cs }) := by
      by_cases h1 : d = "gfycat.com"
      · rcases hpv : post.preview with - | pv
        · exact ⟨[u], by simp [helper_download, primary_attempt, dispatchDomain, h1, gfycat,
            get_gfycat_redgif_url, hslug, fallback_attempt, attempt_naive_preview_download, hpv]⟩
        · cases pv with
          | malformed => exact ⟨[u], by simp [helper_download, primary_attempt, dispatchDomain,
              h1, gfycat, get_gfycat_redgif_url, hslug, fallback_attempt,
              attempt_naive_preview_download, hpv]⟩
          | url purl => exact ⟨[u, purl], by simp [helper_download, primary_attempt,
              dispatchDomain, h1, gfycat, get_gfycat_redgif_url, hslug, fallback_attempt,
              attempt_naive_preview_download, hpv, core_download, fsExists, hl, fsLookup_nil,
              hfs, hnet, check_if_empty_and_delete_file]⟩
      · by_cases h2 : d = "i.imgur.com"
        · rcases hpv : post.preview with - | pv
          · exact ⟨[imgurFetchUrl u], by simp [helper_download, primary_attempt, dispatchDomain,
              h1, h2, imgur, download_to_local_file, core_download, fsExists, hl, fsLookup_nil,
              hfs, hnet, check_if_empty_and_delete_file, fallback_attempt,
              attempt_naive_preview_download, hpv]⟩
          · cases pv with
            | malformed => exact ⟨[imgurFetchUrl u], by simp [helper_download, primary_attempt,
                dispatchDomain, h1, h2, imgur, download_to_local_file, core_download, fsExists,
                hl, fsLookup_nil, hfs, hnet, check_if_empty_and_delete_file, fallback_attempt,
                attempt_naive_preview_download, hpv]⟩
            | url purl => exact ⟨[imgurFetchUrl u, purl], by simp [helper_download,
                primary_attempt, dispatchDomain, h1, h2, imgur, download_to_local_file,
                core_download, fsExists, hl, fsLookup_nil, hfs, hnet,
                check_if_empty_and_delete_file,
                fallback_attempt, attempt_naive_preview_download, hpv]⟩
        · by_cases h3 : d = "i.redd.it"
          · rcases hpv : post.preview with - | pv
            · exact ⟨[u], by simp [helper_download, primary_attempt, dispatchDomain, h1, h2, h3,
                ireddit, download_to_local_file, core_download, fsExists, hl, fsLookup_nil,
                hfs, hnet, check_if_empty_and_delete_file, fallback_attempt,
                attempt_naive_preview_download, hpv]⟩
            · cases pv with
              | malformed => exact ⟨[u], by simp [helper_download, primary_attempt,
                  dispatchDomain, h1, h2, h3, ireddit, download_to_local_file, core_download,
                  fsExists, hl, fsLookup_nil, hfs, hnet, check_if_empty_and_delete_file,
                  fallback_attempt, attempt_naive_preview_download, hpv]⟩
              | url purl => exact ⟨[u, purl], by simp [helper_download, primary_attempt,
                  dispatchDomain, h1, h2, h3, ireddit, download_to_local_file, core_download,
                  fsExists, hl, fsLookup_nil, hfs, hnet, check_if_empty_and_delete_file,
                  fallback_attempt, attempt_naive_preview_download, hpv]⟩
          · by_cases h4 : d = "redgifs.com"
            · rcases hpv : post.preview with - | pv
              · exact ⟨[u], by simp [helper_download, primary_attempt, dispatchDomain, h1, h2,
                  h3, h4, redgifs, get_gfycat_redgif_url, hslug, fallback_attempt,
                  attempt_naive_preview_download, hpv]⟩
              · cases pv with
                | malformed => exact ⟨[u], by simp [helper_download, primary_attempt,
                    dispatchDomain, h1, h2, h3, h4, redgifs, get_gfycat_redgif_url, hslug,
                    fallback_attempt, attempt_naive_preview_download, hpv]⟩
                | url purl => exact ⟨[u, purl], by simp [helper_download, primary_attempt,
                    dispatchDomain, h1, h2, h3, h4, redgifs, get_gfycat_redgif_url, hslug,
                    fallback_attempt, attempt_naive_preview_download, hpv, core_download,
                    fsExists, hl, fsLookup_nil, hfs, hnet, check_if_empty_and_delete_file]⟩
            · rcases hpv : post.preview with - | pv
              · exact ⟨[], by simp [helper_download, primary_attempt, dispatchDomain, h1, h2,
                  h3, h4, do_nothing, fallback_attempt, attempt_naive_preview_download, hpv]⟩
              · cases pv with
                | malformed => exact ⟨[], by simp [helper_download, primary_attempt,
                    dispatchDomain, h1, h2, h3, h4, do_nothing, fallback_attempt,
                    attempt_naive_preview_download, hpv]⟩
                | url purl => exact ⟨[purl], by simp [helper_download, primary_attempt,
                    dispatchDomain, h1, h2, h3, h4, do_nothing, fallback_attempt,
                    attempt_naive_preview_download, hpv, core_download, fsExists, hl,
                    fsLookup_nil, hfs, hnet, check_if_empty_and_delete_file]⟩
    obtain ⟨cs, hkey⟩ := key
    refine ⟨cs, hkey, ?_, ?_, ?_, ?_⟩ <;>
      cases hi : env.incRaises <;>
        simp [download_post, download_post_body, hd, hu, show ¬ maxPosts ≤ w.count by omega,
              hkey, hi, increment_counter, hfs]
  · rintro k rfl hn hi
    constructor
    · simp [download_post, download_post_body, hd, hu, show ¬ maxPosts ≤ w.count by omega, hi,
            helper_download, primary_attempt, dispatchDomain, ireddit, download_to_local_file,
            core_download, fsExists, hfs, fsLookup_nil, hn, check_if_empty_and_delete_file,
            fsLookup_write_self, increment_counter]
    · simp [download_post, download_post_body, hd, hu, show ¬ maxPosts ≤ w.count by omega, hi,
            helper_download, primary_attempt, dispatchDomain, ireddit, download_to_local_file,
            core_download, fsExists, hfs, fsLookup_nil, hn, check_if_empty_and_delete_file,
            fsLookup_write_self, increment_counter]

theorem c8_exceptions_contained_witness :
    postIreddit.domain = some "i.redd.it" ∧ postIreddit.url = some "https://i.redd.it/x.jpg" ∧
    w0.count < 5 ∧ w0.fs = [] ∧
    (((∀ v, envMid.net v = NetResult.connFail) →
      (∀ a b, envMid.slug a b = SlugResult.lookupFail) →
       ∃ cs : List String,
         helper_download envMid "i.redd.it" "https://i.redd.it/x.jpg" postIreddit.title
             postIreddit.preview "dl" w0
           = (false, { w0 with calls := w0.calls ++ cs }) ∧
         download_post_body envMid 5 postIreddit "dl" w0 =
           ((if envMid.incRaises then Except.error () else Except.ok none),
            if envMid.incRaises then { w0 with calls := w0.calls ++ cs }
            else increment_counter false { w0 with calls := w0.calls ++ cs }) ∧
         download_post envMid 5 postIreddit "dl" w0 =
           (none, if envMid.incRaises then { w0 with calls := w0.calls ++ cs }
                  else increment_counter false { w0 with calls := w0.calls ++ cs }) ∧
         (download_post envMid 5 postIreddit "dl" w0).2.count = w0.count ∧
         (download_post envMid 5 postIreddit "dl" w0).2.fs = []) ∧
     (∀ k, "i.redd.it" = "i.redd.it" →
       envMid.net "https://i.redd.it/x.jpg" = NetResult.midFail (k + 1) →
       envMid.incRaises = false →
       download_post envMid 5 postIreddit "dl" w0 =
         (none, increment_counter true
           { w0 with calls := w0.calls ++ ["https://i.redd.it/x.jpg"],
                     fs := fsWrite w0.fs
                       (construct_local_filename postIreddit.title "https://i.redd.it/x.jpg" "dl")
                       (k + 1) }) ∧
       (download_post envMid 5 postIreddit "dl" w0).2.count = w0.count + 1)) :=
  ⟨rfl, rfl, by decide, rfl,
    c8_exceptions_contained envMid 5 postIreddit "i.redd.it" "https://i.redd.it/x.jpg" "dl" w0
      rfl rfl (by decide) rfl⟩

/-- The inductive invariant of the check-then-act quota protocol: the
worker phases partition the `n` workers, and the shared count plus the
number of in-flight workers never exceeds `maxPosts + n - 1`, because a
worker only becomes in-flight when the count is still below `maxPosts`. -/
theorem qreach_invariant (maxPosts n : Nat) (s : QState) (h : QReach maxPosts n s) :
    s.inflight + s.idle = n ∧ s.count + s.inflight ≤ maxPosts + n - 1 := by
  induction h with
  | init => exact ⟨by simp, by simp⟩
  | step s t hs hst ih =>
    obtain ⟨ih1, ih2⟩ := ih
    cases hst with
    | pass c i d hc => constructor <;> simp_all <;> omega
    | skip c i d hc => exact ⟨ih1, ih2⟩
    | record c i d succ => cases succ <;> constructor <;> simp_all <;> omega

/-- C9: in the concurrent check-then-act quota protocol with `n` workers
(each quota check and each later outcome record is a separate atomic
event), every reachable state keeps the shared successful-download count
at most `maxPosts + n - 1`: the count never exceeds the configured
maximum by more than the number of workers minus one. -/
theorem c9_soft_cap (maxPosts n : Nat) (s : QState) (h : QReach maxPosts n s) :
    s.count ≤ maxPosts + n - 1 := by
  have := qreach_invariant maxPosts n s h
  omega

theorem c9_soft_cap_witness :
    QReach 1 2 ⟨2, 0, 2⟩ ∧ (QState.mk 2 0 2).count ≤ 1 + 2 - 1 := by
  have h0 : QReach 1 2 ⟨0, 0, 2⟩ := QReach.init
  have h1 : QReach 1 2 ⟨0, 1, 1⟩ := QReach.step _ _ h0 (QStep.pass 0 0 1 (by omega))
  have h2 : QReach 1 2 ⟨0, 2, 0⟩ := QReach.step _ _ h1 (QStep.pass 0 1 0 (by omega))
  have h3 : QReach 1 2 ⟨1, 1, 1⟩ := QReach.step _ _ h2 (by simpa using QStep.record 0 1 0 true)
  have h4 : QReach 1 2 ⟨2, 0, 2⟩ := QReach.step _ _ h3 (by simpa using QStep.record 1 0 1 true)
  exact ⟨h4, c9_soft_cap 1 2 ⟨2, 0, 2⟩ h4⟩

end Downloaders
